import Mathlib

set_option maxRecDepth 100000
set_option maxHeartbeats 2000000

/-!
Verification of the response-caching layer of the Sommelier Assistant
(`src/sommelier/sommelier_ai_assistant.py`): query-essence computation,
stable cache-key derivation, fuzzy similarity search, retry handling and
session metrics.  Python strings are modelled as `String`, Python floats as
`ℚ`, Python dictionaries as association lists, and `hashlib.md5` by a full
executable MD5 implementation over UTF-8 byte lists.
-/

/-! Python-style string primitives used throughout the source file. -/

/-- Whether the first character list is a prefix of the second. -/
def charsStartWith : List Char → List Char → Bool
  | [], _ => true
  | _ :: _, [] => false
  | a :: as, b :: bs => a == b && charsStartWith as bs

/-- Whether the first character list occurs inside the second. -/
def charsContain (pat : List Char) : List Char → Bool
  | [] => pat.isEmpty
  | b :: bs => charsStartWith pat (b :: bs) || charsContain pat bs

/-- Python `sub in s` substring test. -/
def pyContains (s sub : String) : Bool :=
  charsContain sub.data s.data

/-- Python `s.lower()` (ASCII case folding, as `Char.toLower` provides). -/
def pyLower (s : String) : String :=
  String.mk (s.data.map Char.toLower)

/-- Python `s.strip()`: drop leading and trailing whitespace. -/
def pyStrip (s : String) : String :=
  String.mk
    (((s.data.dropWhile (fun c => c.isWhitespace)).reverse.dropWhile
      (fun c => c.isWhitespace)).reverse)

/-- Python `s.lower().strip()`, the normalisation used all over the source. -/
def pyLowerStrip (s : String) : String :=
  pyStrip (pyLower s)

/-- Python `s[:n]` on character counts. -/
def pyTake (s : String) (n : Nat) : String :=
  String.mk (s.data.take n)

/-- Whether a string is empty (Python falsiness of a string). -/
def pyEmpty (s : String) : Bool :=
  s.data.isEmpty

/-- Whitespace-run splitter for Python `s.split()`. -/
def wordsAux : List Char → List Char → List (List Char)
  | [], acc => if acc.isEmpty then [] else [acc.reverse]
  | c :: rest, acc =>
    if c.isWhitespace then
      if acc.isEmpty then wordsAux rest [] else acc.reverse :: wordsAux rest []
    else wordsAux rest (c :: acc)

/-- Python `s.split()` : split on whitespace, discarding empty pieces. -/
def pySplit (s : String) : List String :=
  (wordsAux s.data []).map String.mk

/-- Fuel-driven scanner for Python `s.split(sep)` with a non-empty separator. -/
def splitOnFuel (sep : List Char) : Nat → List Char → List Char → List (List Char)
  | _, [], acc => [acc.reverse]
  | 0, l, acc => [acc.reverse ++ l]
  | fuel + 1, c :: rest, acc =>
    if charsStartWith sep (c :: rest) then
      acc.reverse :: splitOnFuel sep fuel ((c :: rest).drop sep.length) []
    else splitOnFuel sep fuel rest (c :: acc)

/-- Python `s.split(sep)` (the source only calls it with non-empty `sep`). -/
def pySplitOn (s sep : String) : List String :=
  if sep.data.isEmpty then [s]
  else (splitOnFuel sep.data s.data.length s.data []).map String.mk

/-- Fuel-driven scanner for Python `s.replace(pat, repl)` with non-empty `pat`. -/
def replaceFuel (pat repl : List Char) : Nat → List Char → List Char
  | _, [] => []
  | 0, l => l
  | fuel + 1, c :: rest =>
    if charsStartWith pat (c :: rest) then
      repl ++ replaceFuel pat repl fuel ((c :: rest).drop pat.length)
    else c :: replaceFuel pat repl fuel rest

/-- Python `s.replace(pat, repl)` (the source only uses non-empty patterns). -/
def pyReplace (s pat repl : String) : String :=
  if pat.data.isEmpty then s
  else String.mk (replaceFuel pat.data repl.data s.data.length s.data)

/-- Python `s.rstrip(chars)` for a fixed character set. -/
def pyRstrip (s : String) (chars : List Char) : String :=
  String.mk ((s.data.reverse.dropWhile (fun c => chars.contains c)).reverse)

/-- Python `sep.join(parts)`. -/
def strJoin (sep : String) : List String → String
  | [] => ""
  | [x] => x
  | x :: xs => x ++ sep ++ strJoin sep xs

/-- Last element of a split list (Python `parts[-1]`). -/
def lastPartD (l : List String) (d : String) : String :=
  l.getLastD d

/-- Stable insertion into a weight-descending list: an element is placed
before the first entry whose weight is less than or equal to its own. -/
def insertDesc (x : String × ℚ) : List (String × ℚ) → List (String × ℚ)
  | [] => [x]
  | y :: ys => if y.2 ≤ x.2 then x :: y :: ys else y :: insertDesc x ys

/-- Stable descending sort by weight, as Python's stable
`sort(key=..., reverse=True)`. -/
def sortDesc : List (String × ℚ) → List (String × ℚ)
  | [] => []
  | x :: xs => insertDesc x (sortDesc xs)

/-- Python `round` uses banker's rounding (round half to even). -/
def roundHalfEven (q : ℚ) : ℤ :=
  let f := ⌊q⌋
  let r := q - (f : ℚ)
  if r < 1/2 then f
  else if 1/2 < r then f + 1
  else if f % 2 = 0 then f else f + 1

/-- Python `round(x, d)` on ideal (rational) numbers. -/
def pyRound (q : ℚ) (d : Nat) : ℚ :=
  (roundHalfEven (q * (10 : ℚ) ^ d) : ℚ) / (10 : ℚ) ^ d

/-! MD5, as called through `hashlib.md5(...).hexdigest()` in
`_generate_stable_id` and `_get_query_essence`.  Bytes and 32-bit words are
`Nat`s reduced mod 256 / mod 2^32. -/

/-- UTF-8 encoding of one scalar value (Python `str.encode()` is UTF-8). -/
def utf8Bytes (c : Char) : List Nat :=
  let n := c.toNat
  if n < 128 then [n]
  else if n < 2048 then [192 + n / 64, 128 + n % 64]
  else if n < 65536 then [224 + n / 4096, 128 + n / 64 % 64, 128 + n % 64]
  else [240 + n / 262144, 128 + n / 4096 % 64, 128 + n / 64 % 64, 128 + n % 64]

/-- UTF-8 bytes of a string. -/
def strBytes (s : String) : List Nat :=
  s.data.flatMap utf8Bytes

/-- The 64 MD5 sine-derived constants. -/
def md5K : List Nat :=
  [0xd76aa478, 0xe8c7b756, 0x242070db, 0xc1bdceee,
   0xf57c0faf, 0x4787c62a, 0xa8304613, 0xfd469501,
   0x698098d8, 0x8b44f7af, 0xffff5bb1, 0x895cd7be,
   0x6b901122, 0xfd987193, 0xa679438e, 0x49b40821,
   0xf61e2562, 0xc040b340, 0x265e5a51, 0xe9b6c7aa,
   0xd62f105d, 0x02441453, 0xd8a1e681, 0xe7d3fbc8,
   0x21e1cde6, 0xc33707d6, 0xf4d50d87, 0x455a14ed,
   0xa9e3e905, 0xfcefa3f8, 0x676f02d9, 0x8d2a4c8a,
   0xfffa3942, 0x8771f681, 0x6d9d6122, 0xfde5380c,
   0xa4beea44, 0x4bdecfa9, 0xf6bb4b60, 0xbebfbc70,
   0x289b7ec6, 0xeaa127fa, 0xd4ef3085, 0x04881d05,
   0xd9d4d039, 0xe6db99e5, 0x1fa27cf8, 0xc4ac5665,
   0xf4292244, 0x432aff97, 0xab9423a7, 0xfc93a039,
   0x655b59c3, 0x8f0ccc92, 0xffeff47d, 0x85845dd1,
   0x6fa87e4f, 0xfe2ce6e0, 0xa3014314, 0x4e0811a1,
   0xf7537e82, 0xbd3af235, 0x2ad7d2bb, 0xeb86d391]

/-- The MD5 per-round left-rotation amounts. -/
def md5S : List Nat :=
  [7, 12, 17, 22, 7, 12, 17, 22, 7, 12, 17, 22, 7, 12, 17, 22,
   5, 9, 14, 20, 5, 9, 14, 20, 5, 9, 14, 20, 5, 9, 14, 20,
   4, 11, 16, 23, 4, 11, 16, 23, 4, 11, 16, 23, 4, 11, 16, 23,
   6, 10, 15, 21, 6, 10, 15, 21, 6, 10, 15, 21, 6, 10, 15, 21]

/-- 32-bit left rotation. -/
def rotl32 (x c : Nat) : Nat :=
  ((x <<< c) ||| (x >>> (32 - c))) % 4294967296

/-- Little-endian 32-bit word read from a 64-byte block. -/
def wordAt (blk : List Nat) (g : Nat) : Nat :=
  blk.getD (4 * g) 0 + 256 * blk.getD (4 * g + 1) 0 +
    65536 * blk.getD (4 * g + 2) 0 + 16777216 * blk.getD (4 * g + 3) 0

/-- One MD5 round on the running state `(A, B, C, D)`. -/
def md5Round (blk : List Nat) (st : Nat × Nat × Nat × Nat) (i : Nat) :
    Nat × Nat × Nat × Nat :=
  let A := st.1
  let B := st.2.1
  let C := st.2.2.1
  let D := st.2.2.2
  let fg : Nat × Nat :=
    if i < 16 then ((B &&& C) ||| ((B ^^^ 4294967295) &&& D), i)
    else if i < 32 then ((D &&& B) ||| ((D ^^^ 4294967295) &&& C), (5 * i + 1) % 16)
    else if i < 48 then (B ^^^ C ^^^ D, (3 * i + 5) % 16)
    else (C ^^^ (B ||| (D ^^^ 4294967295)), (7 * i) % 16)
  let F := (fg.1 + A + md5K.getD i 0 + wordAt blk fg.2) % 4294967296
  (D, (B + rotl32 F (md5S.getD i 0)) % 4294967296, B, C)

/-- Process one 64-byte block. -/
def md5Chunk (st : Nat × Nat × Nat × Nat) (blk : List Nat) :
    Nat × Nat × Nat × Nat :=
  let r := (List.range 64).foldl (md5Round blk) st
  ((st.1 + r.1) % 4294967296, (st.2.1 + r.2.1) % 4294967296,
   (st.2.2.1 + r.2.2.1) % 4294967296, (st.2.2.2 + r.2.2.2) % 4294967296)

/-- Process `n` consecutive 64-byte blocks. -/
def md5Blocks : Nat → Nat × Nat × Nat × Nat → List Nat → Nat × Nat × Nat × Nat
  | 0, st, _ => st
  | n + 1, st, l => md5Blocks n (md5Chunk st (l.take 64)) (l.drop 64)

/-- MD5 padding: `0x80`, zeros to 56 mod 64, then the bit length in 8 LE bytes. -/
def md5Pad (msg : List Nat) : List Nat :=
  let lenBits := (msg.length * 8) % 18446744073709551616
  let padLen := (119 - msg.length % 64) % 64
  msg ++ [128] ++ List.replicate padLen 0 ++
    (List.range 8).map (fun j => (lenBits >>> (8 * j)) % 256)

/-- The four MD5 state words of a byte message. -/
def md5Words (msg : List Nat) : Nat × Nat × Nat × Nat :=
  let p := md5Pad msg
  md5Blocks (p.length / 64) (1732584193, 4023233417, 2562383102, 271733878) p

/-- Little-endian byte rendering of one 32-bit word. -/
def wordLEBytes (w : Nat) : List Nat :=
  [w % 256, w / 256 % 256, w / 65536 % 256, w / 16777216 % 256]

/-- The 16 digest bytes. -/
def md5DigestBytes (msg : List Nat) : List Nat :=
  let w := md5Words msg
  wordLEBytes w.1 ++ wordLEBytes w.2.1 ++ wordLEBytes w.2.2.1 ++ wordLEBytes w.2.2.2

/-- Lowercase hex character for a value below 16. -/
def toHexChar (n : Nat) : Char :=
  if n < 10 then Char.ofNat (48 + n) else Char.ofNat (87 + n)

/-- Two hex characters of one byte. -/
def byteHexChars (b : Nat) : List Char :=
  [toHexChar (b / 16 % 16), toHexChar (b % 16)]

/-- Python `hashlib.md5(s.encode()).hexdigest()`. -/
def md5Hexdigest (s : String) : String :=
  String.mk ((md5DigestBytes (strBytes s)).flatMap byteHexChars)

/-! Query normalisation: `_is_food_pairing_query`, `_extract_food_items`,
`_extract_key_terms`, `_extract_wine_type`, `_extract_price_range`,
`_extract_region` and `_get_query_essence` from the source. -/

/-- The conversation-artifact tokens stripped by the source, in source order. -/
def suspicious_tokens : List String :=
  ["assistant:", "user:", "assistant", "user", "sommelier:"]

/-- The `for token in suspicious_tokens: query = query.replace(token, "")` loop. -/
def stripSuspicious (q : String) : String :=
  suspicious_tokens.foldl (fun s t => if pyContains s t then pyReplace s t ("") else s) q

/-- The fixed food vocabulary of `_extract_food_items`, in source order. -/
def food_categories : List String :=
  ["steak", "beef", "pork", "lamb", "veal", "chicken", "turkey", "duck", "goose",
   "meat", "burgers", "barbecue", "bbq", "ribs", "bacon", "ham", "sausage",
   "fish", "salmon", "tuna", "cod", "halibut", "trout", "seafood", "shrimp", "lobster",
   "crab", "oyster", "mussel", "clam", "scallop", "squid", "octopus", "eel",
   "pasta", "pizza", "risotto", "lasagna", "spaghetti", "gnocchi", "ravioli",
   "cheese", "cheddar", "brie", "camembert", "gouda", "blue cheese", "goat cheese",
   "parmesan", "feta", "mozzarella", "ricotta", "dairy",
   "chocolate", "dessert", "cake", "pie", "tart", "cookie", "pudding", "ice cream",
   "vegetable", "salad", "greens", "tomato", "mushroom", "truffle", "potato",
   "eggplant", "zucchini", "cucumber", "carrot", "asparagus", "broccoli",
   "italian", "french", "indian", "chinese", "japanese", "mexican", "thai", "spanish"]

/-- `_is_food_pairing_query`: pairing-verb heuristic with the deictic guard. -/
def is_food_pairing_query (query0 : String) : Bool :=
  let query := stripSuspicious (pyLowerStrip query0)
  let pairing_terms := ["pair", "pairing", "goes with", "good with", "match",
                        "matching", "complement"]
  let is_pairing := pairing_terms.any (fun t => pyContains query t)
  if pyContains query ("that") || pyContains query ("this") then
    is_pairing &&
      ["food", "dish", "meal", "restaurant", "cuisine"].any (fun t => pyContains query t)
  else is_pairing

/-- The pronoun list of `_extract_food_items`. -/
def pronouns : List String := ["that", "this", "these", "those", "it"]

/-- `_extract_food_items`: food-entity extraction for a pairing query. -/
def extract_food_items (query0 : String) : List String :=
  if pyContains (pyLower query0) ("option") || pyContains (pyLower query0) ("sounds good")
      || ["that wine", "that option"].any (fun w => pyContains (pyLower query0) w) then []
  else
    let query1 := pyLowerStrip query0
    if ["first suggestion", "second suggestion", "third suggestion",
        "that suggestion", "option", "sounds good"].any (fun p => pyContains query1 p) then []
    else
      let query := stripSuspicious query1
      let found0 := food_categories.filter (fun f => pyContains query f)
      let found :=
        if found0.isEmpty && (pyContains query ("pair") || pyContains query ("pairing")) then
          let parts := pySplitOn query ("with")
          if parts.length > 1 then
            let after_with := pyStrip (parts.getD 1 (""))
            let food_part := strJoin (" ") ((pySplit after_with).take 3)
            if suspicious_tokens.any (fun t => pyContains food_part t) then found0
            else found0 ++ [food_part]
          else found0
        else found0
      if found.isEmpty && (pyContains query ("that") || pyContains query ("this"))
          && (pyContains query ("pair") || pyContains query ("dish")
              || pyContains query ("food")) then []
      else
        (found.map (fun f => pyRstrip f ['.', ',', '?', '!', ':', ';'])).filter
          (fun f => !(pyEmpty (pyStrip f)) && !(pronouns.contains (pyStrip f)))

/-- The general stopword set of `_extract_key_terms`. -/
def key_term_stopwords : List String :=
  ["what", "which", "how", "is", "are", "the", "a", "an", "in", "with", "for", "to",
   "of", "would", "should", "could", "will", "can", "do", "does", "has", "have", "had",
   "i", "you", "he", "she", "we", "they", "it", "this", "that", "these", "those",
   "am", "is", "are", "was", "were", "be", "been", "being", "there", "their", "me",
   "and", "or", "but", "if", "then", "so", "because", "since", "while", "when", "where",
   "why", "how", "all", "any", "both", "each", "few", "more", "most", "other", "some",
   "such", "no", "nor", "not", "only", "own", "same", "than", "too", "very", "just",
   "should", "now", "also", "very", "really", "quite"]

/-- The domain stopwords of `_extract_key_terms`. -/
def wine_stopwords : List String :=
  ["wine", "wines", "drink", "bottle", "glass", "recommend", "suggestion",
   "taste", "flavor", "recommend", "tell", "about", "know", "like", "good"]

/-- The boosted wine terms of `_extract_key_terms`. -/
def important_terms : List String :=
  ["cabernet", "merlot", "chardonnay", "pinot", "sauvignon", "riesling", "shiraz",
   "zinfandel", "syrah", "malbec", "champagne", "prosecco", "bordeaux", "burgundy",
   "vintage", "terroir", "tannin", "acidity", "oak", "body", "dry", "sweet", "pairing",
   "decant", "cellar", "sommelier", "vineyard", "winery", "german", "french",
   "italian", "spanish"]

/-- `_extract_key_terms`: weighted keyword extraction (weights are exact
rationals; Python sorts stably with `reverse=True`, modelled by a stable
merge sort on the flipped comparison). -/
def extract_key_terms (query : String) : String :=
  let words := pySplit query
  let weighted := (List.range words.length).filterMap (fun i =>
    let wl := pyLower (words.getD i (""))
    if key_term_stopwords.contains wl then none
    else if wl.length ≤ 2 then none
    else
      let base : ℚ :=
        if wine_stopwords.contains wl && words.length > 3 then 1/2
        else if important_terms.contains wl then 2
        else 1
      some (wl, base + ((i : ℚ) + 1) / (words.length : ℚ)))
  let sorted := sortDesc weighted
  let top := (sorted.take 5).map (fun p => p.1)
  if top.isEmpty then query else strJoin (" ") top

/-- The wine-type vocabulary of `_extract_wine_type`, in source (dict) order. -/
def wine_types : List (String × List String) :=
  [("red", ["red", "cabernet", "merlot", "pinot noir", "syrah", "shiraz", "malbec",
            "zinfandel"]),
   ("white", ["white", "chardonnay", "sauvignon blanc", "pinot grigio", "riesling",
              "moscato"]),
   ("sparkling", ["sparkling", "champagne", "prosecco", "cava", "bubbly"]),
   ("rose", ["rosé", "rose", "pink wine"])]

/-- `_extract_wine_type`. -/
def extract_wine_type (query : String) : Option String :=
  (wine_types.find? (fun p => p.2.any (fun t => pyContains query t))).map (fun p => p.1)

/-- Maximal digit run at the head of a character list (regex `\d+`). -/
def takeDigits (l : List Char) : List Char × List Char :=
  (l.takeWhile (fun c => c.isDigit), l.dropWhile (fun c => c.isDigit))

/-- One-or-more whitespace (regex `\s+`). -/
def skipWs1 (l : List Char) : Option (List Char) :=
  if (l.takeWhile (fun c => c.isWhitespace)).isEmpty then none
  else some (l.dropWhile (fun c => c.isWhitespace))

/-- Literal match at the head of a character list. -/
def matchLit (lit l : List Char) : Option (List Char) :=
  if charsStartWith lit l then some (l.drop lit.length) else none

/-- Leftmost-match search, as `re.search` does. -/
def searchA {α : Type} (p : List Char → Option α) : List Char → Option α
  | [] => p []
  | c :: rest =>
    match p (c :: rest) with
    | some r => some r
    | none => searchA p rest

/-- Matcher for the patterns `kw\s+\$(\d+)` of `_extract_price_range`. -/
def pKwDollarAt (kw : List Char) (l : List Char) : Option String :=
  match matchLit kw l with
  | none => none
  | some l1 =>
    match skipWs1 l1 with
    | none => none
    | some l2 =>
      match matchLit ['$'] l2 with
      | none => none
      | some l3 =>
        let d := takeDigits l3
        if d.1.isEmpty then none else some (String.mk d.1)

/-- Matcher for `\$(\d+)-\$?(\d+)`. -/
def pRangeAt (l : List Char) : Option (String × String) :=
  match matchLit ['$'] l with
  | none => none
  | some l1 =>
    let d1 := takeDigits l1
    if d1.1.isEmpty then none
    else
      match matchLit ['-'] d1.2 with
      | none => none
      | some l2 =>
        let l3 := match matchLit ['$'] l2 with
          | some l3 => l3
          | none => l2
        let d2 := takeDigits l3
        if d2.1.isEmpty then none else some (String.mk d1.1, String.mk d2.1)

/-- Matcher for `\$(\d+)`. -/
def pDollarAt (l : List Char) : Option String :=
  match matchLit ['$'] l with
  | none => none
  | some l1 =>
    let d := takeDigits l1
    if d.1.isEmpty then none else some (String.mk d.1)

/-- Matcher for `(\d+)\s+dollars`. -/
def pDollarsWordAt (l : List Char) : Option String :=
  let d := takeDigits l
  if d.1.isEmpty then none
  else
    match skipWs1 d.2 with
    | none => none
    | some l1 =>
      match matchLit ("dollars").data l1 with
      | none => none
      | some _ => some (String.mk d.1)

/-- `_extract_price_range`: the ordered `re.search` patterns, then the
qualitative price descriptors. -/
def extract_price_range (query : String) : Option String :=
  let l := query.data
  match searchA (pKwDollarAt ("under").data) l with
  | some d => some ("price_" ++ d)
  | none =>
  match searchA (pKwDollarAt ("less than").data) l with
  | some d => some ("price_" ++ d)
  | none =>
  match searchA (pKwDollarAt ("around").data) l with
  | some d => some ("price_" ++ d)
  | none =>
  match searchA pRangeAt l with
  | some d => some ("price_" ++ d.1 ++ "_to_" ++ d.2)
  | none =>
  match searchA pDollarAt l with
  | some d => some ("price_" ++ d)
  | none =>
  match searchA pDollarsWordAt l with
  | some d => some ("price_" ++ d)
  | none =>
  if pyContains query ("cheap") || pyContains query ("inexpensive")
      || pyContains query ("budget") then some ("price_budget")
  else if pyContains query ("expensive") || pyContains query ("premium")
      || pyContains query ("luxury") then some ("price_premium")
  else none

/-- The region vocabulary of `_extract_region`, in source (dict) order. -/
def wine_regions : List (String × List String) :=
  [("france", ["french", "france", "bordeaux", "burgundy", "champagne", "rhone", "loire"]),
   ("italy", ["italian", "italy", "tuscany", "piedmont", "veneto", "sicily"]),
   ("spain", ["spanish", "spain", "rioja", "catalonia", "ribera"]),
   ("usa", ["american", "california", "napa", "sonoma", "oregon", "washington"]),
   ("australia", ["australian", "australia", "barossa", "margaret river"]),
   ("new_zealand", ["new zealand", "marlborough"]),
   ("argentina", ["argentinian", "argentina", "mendoza"]),
   ("chile", ["chilean", "chile"]),
   ("germany", ["german", "germany", "mosel", "rheingau"])]

/-- `_extract_region`. -/
def extract_region (query : String) : Option String :=
  (wine_regions.find? (fun p => p.2.any (fun t => pyContains (pyLower query) t))).map
    (fun p => p.1)

/-- The stopwords removed from the exact-match component of the essence. -/
def exact_stopwords : List String :=
  ["a", "an", "the", "is", "are", "that", "this", "with", "for", "to", "in",
   "of", "and", "or"]

/-- `_get_query_essence`: canonical essence of a query. -/
def get_query_essence (query : String) : String :=
  let normalized := pyLowerStrip query
  let exact_words := pySplit normalized
  let exact_query0 :=
    strJoin (" ") (exact_words.filter (fun w => !(exact_stopwords.contains w)))
  let exact_query :=
    if exact_query0.length > 30 then "q_" ++ pyTake (md5Hexdigest exact_query0) 10
    else exact_query0
  let food_items :=
    if is_food_pairing_query normalized then extract_food_items normalized else []
  if !food_items.isEmpty then
    "exact_" ++ exact_query ++ "_pair_with_" ++ strJoin (" ") food_items
  else if ["recommend", "suggest", "looking for", "what wine"].any
      (fun t => pyContains normalized t) then
    let constraints := (extract_wine_type normalized).toList
      ++ (extract_price_range normalized).toList ++ (extract_region normalized).toList
    if !constraints.isEmpty then
      "exact_" ++ exact_query ++ "_recommend_" ++ strJoin (" ") constraints
    else "exact_" ++ exact_query ++ "_" ++ extract_key_terms normalized
  else "exact_" ++ exact_query ++ "_" ++ extract_key_terms normalized

/-! `_generate_stable_id`: the deterministic cache key. -/

/-- The conversation segment: Python appends `|conv_<id>` only when the
conversation id is truthy (so `None` and the empty string both give `""`). -/
def conv_component : Option String → String
  | some c => if pyEmpty c then "" else "|conv_" ++ c
  | none => ""

/-- The composite pre-hash string of `_generate_stable_id`. -/
def stable_id_components (query_essence data_source_id prompt_id : String)
    (conversation_id : Option String) : String :=
  query_essence ++ "|" ++ data_source_id ++ "|" ++ prompt_id
    ++ conv_component conversation_id

/-- `_generate_stable_id`: namespace tag plus MD5 hex digest of the components. -/
def generate_stable_id (query_essence data_source_id prompt_id : String)
    (conversation_id : Option String) : String :=
  "sommelier_" ++ md5Hexdigest
    (stable_id_components query_essence data_source_id prompt_id conversation_id)

/-! `_calculate_text_similarity` and the fuzzy-match loop of
`find_previous_response`. -/

/-- The word set of a text (Python `set(text.lower().split())`). -/
def word_set (t : String) : Finset String :=
  (pySplit (pyLower t)).toFinset

/-- `_calculate_text_similarity`: Jaccard similarity of the word sets,
`0.0` when either set is empty.  Python float division is modelled by exact
rational division. -/
def calculate_text_similarity (text1 text2 : String) : ℚ :=
  let words1 := word_set text1
  let words2 := word_set text2
  if words1 = ∅ ∨ words2 = ∅ then 0
  else ((words1 ∩ words2).card : ℚ) / ((words1 ∪ words2).card : ℚ)

/-- A stored response record, as used by the fuzzy-match loop. -/
structure CacheHit where
  query : String
  response : String
  createdAt : String
deriving DecidableEq

/-- The per-hit preprocessing of the loop: lower-case and strip the stored
query, then keep only the part after the last embedded `user:` marker. -/
def hit_user_query (h : CacheHit) : String :=
  let hq := pyLowerStrip h.query
  if pyContains hq ("user:") then pyStrip (lastPartD (pySplitOn hq ("user:")) hq) else hq

/-- The candidate loop of `find_previous_response` (source lines 1134-1162):
running best match and best score, score seeded with the 0.7 threshold,
strict improvement required. -/
def find_best_match_loop (uq : String) :
    List CacheHit → Option CacheHit → ℚ → Option CacheHit
  | [], best, _ => best
  | h :: rest, best, best_score =>
    let s := calculate_text_similarity uq (hit_user_query h)
    if best_score < s then find_best_match_loop uq rest (some h) s
    else find_best_match_loop uq rest best best_score

/-- The fuzzy search over a candidate pool: `None` exactly when no candidate
strictly exceeds the 0.7 threshold (in particular on an empty pool). -/
def find_previous_response_fuzzy (uq : String) (hits : List CacheHit) :
    Option CacheHit :=
  find_best_match_loop uq hits none (7 / 10)

/-! Session metrics: the `current_session` dictionary and the operations
`log_query`, `log_error`, `reset_metrics`, `calculate_derived_metrics`.
Timestamps (`datetime.now()`) are environment inputs and passed as
parameters. -/

/-- One row of the per-query-type table. -/
structure QueryTypeStats where
  total : Nat
  hits : Nat
  misses : Nat
deriving DecidableEq

/-- One entry of the rolling query log. -/
structure QueryLogEntry where
  timestamp : String
  query : String
  cache_hit : Bool
  response_time : ℚ
  query_type : Option String
  object_id : Option String
deriving DecidableEq

/-- One entry of the error log. -/
structure ErrorEntry where
  timestamp : String
  etype : Option String
  details : Option String
deriving DecidableEq

/-- The Algolia operation counters of the session dictionary. -/
structure AlgoliaOps where
  search_operations : Nat
  get_operations : Nat
  browse_operations : Nat
  save_operations : Nat
  update_operations : Nat
  delete_operations : Nat
  total_operations : Nat
  operations_cost : ℚ
deriving DecidableEq

/-- All-zero Algolia counters. -/
def freshAlgoliaOps : AlgoliaOps := ⟨0, 0, 0, 0, 0, 0, 0, 0⟩

/-- The `current_session` metrics dictionary. -/
structure SessionMetrics where
  start_time : String
  total_queries : Nat
  cache_hits : Nat
  cache_misses : Nat
  api_errors : Nat
  response_times : List ℚ
  cache_hit_times : List ℚ
  generation_times : List ℚ
  query_types : List (String × QueryTypeStats)
  query_log : List QueryLogEntry
  algolia_operations : AlgoliaOps
  errors : List ErrorEntry
deriving DecidableEq

/-- The freshly initialised session dictionary (`__init__` / `reset_metrics`). -/
def fresh_session (ts : String) : SessionMetrics :=
  ⟨ts, 0, 0, 0, 0, [], [], [], [], [], freshAlgoliaOps, []⟩

/-- The `query_types[qt]` dictionary update of `log_query`. -/
def updateQueryTypes (qts : List (String × QueryTypeStats)) (qt : String)
    (is_hit : Bool) : List (String × QueryTypeStats) :=
  let qts1 := if qts.any (fun p => p.1 == qt) then qts else qts ++ [(qt, ⟨0, 0, 0⟩)]
  qts1.map (fun p =>
    if p.1 == qt then
      (p.1, ⟨p.2.total + 1,
             if is_hit then p.2.hits + 1 else p.2.hits,
             if is_hit then p.2.misses else p.2.misses + 1⟩)
    else p)

/-- `log_query`: counters, latency buckets, per-type table and rolling log. -/
def log_query (m : SessionMetrics) (ts query : String) (is_cache_hit : Bool)
    (response_time : ℚ) (query_type : Option String) (object_id : Option String) :
    SessionMetrics :=
  let m1 := { m with total_queries := m.total_queries + 1 }
  let m2 :=
    if is_cache_hit then
      { m1 with cache_hits := m1.cache_hits + 1,
                cache_hit_times := m1.cache_hit_times ++ [response_time] }
    else
      { m1 with cache_misses := m1.cache_misses + 1,
                generation_times := m1.generation_times ++ [response_time] }
  let m3 := { m2 with response_times := m2.response_times ++ [response_time] }
  let m4 :=
    match query_type with
    | some qt =>
      if pyEmpty qt then m3
      else { m3 with query_types := updateQueryTypes m3.query_types qt is_cache_hit }
    | none => m3
  { m4 with query_log := m4.query_log ++
      [⟨ts, if query.length > 100 then pyTake query 100 ++ "..." else query,
        is_cache_hit, response_time, query_type, object_id⟩] }

/-- `log_error`: bumps the error counter and appends a truncated entry
(`str(details)[:200] if details else None`, so an empty detail collapses
to `None`). -/
def log_error (m : SessionMetrics) (ts : String)
    (error_type details : Option String) : SessionMetrics :=
  { m with api_errors := m.api_errors + 1,
           errors := m.errors ++
             [⟨ts, error_type,
               match details with
               | some d => if pyEmpty d then none else some (pyTake d 200)
               | none => none⟩] }

/-- `reset_metrics`: the old session is flushed to durable storage (external
I/O, outside the state modelled here) and the counters reinitialised. -/
def reset_metrics (_m : SessionMetrics) (ts : String) : SessionMetrics :=
  fresh_session ts

/-- Sum of a rational list. -/
def qSum (l : List ℚ) : ℚ := l.foldl (fun a b => a + b) 0

/-- The derived aggregates written by `calculate_derived_metrics`. -/
structure DerivedMetrics where
  cache_hit_rate : ℚ
  cache_miss_rate : ℚ
  avg_response_time : ℚ
  avg_cache_hit_time : ℚ
  avg_generation_time : ℚ
  estimated_tokens_saved : ℚ
  estimated_cost_saved : ℚ
  potential_cost_without_caching : ℚ
  actual_cost_with_caching : ℚ
  cost_reduction_percentage : ℚ
deriving DecidableEq

/-- `calculate_derived_metrics`, parameterised by the estimator constants
`estimated_tokens_per_response` and `estimated_cost_per_1k_tokens`
(defaults 1000 and 0.002 in `__init__`). -/
def calculate_derived_metrics (m : SessionMetrics)
    (tokens_per_response cost_per_1k : ℚ) : DerivedMetrics :=
  let total := m.total_queries
  let hits := m.cache_hits
  let misses := m.cache_misses
  let hit_rate := if total > 0 then pyRound ((hits : ℚ) / (total : ℚ) * 100) 2 else 0
  let miss_rate := if total > 0 then pyRound ((misses : ℚ) / (total : ℚ) * 100) 2 else 0
  let avg_rt :=
    if !m.response_times.isEmpty then
      pyRound (qSum m.response_times / (m.response_times.length : ℚ)) 2
    else 0
  let avg_ht :=
    if !m.cache_hit_times.isEmpty then
      pyRound (qSum m.cache_hit_times / (m.cache_hit_times.length : ℚ)) 2
    else 0
  let avg_gt :=
    if !m.generation_times.isEmpty then
      pyRound (qSum m.generation_times / (m.generation_times.length : ℚ)) 2
    else 0
  let tokens_saved := (hits : ℚ) * tokens_per_response
  let cost_saved := tokens_saved / 1000 * cost_per_1k
  let potential_cost := ((total : ℚ) * tokens_per_response / 1000) * cost_per_1k
  let actual_cost := ((misses : ℚ) * tokens_per_response / 1000) * cost_per_1k
  ⟨hit_rate, miss_rate, avg_rt, avg_ht, avg_gt, tokens_saved,
   pyRound cost_saved 4, pyRound potential_cost 4, pyRound actual_cost 4,
   pyRound (if potential_cost > 0 then cost_saved / potential_cost * 100 else 0) 2⟩

/-- A metrics operation, for reachability of session states. -/
inductive MetricsOp where
  | log_q (ts query : String) (is_cache_hit : Bool) (response_time : ℚ)
      (query_type : Option String) (object_id : Option String)
  | log_e (ts : String) (error_type details : Option String)
  | reset (ts : String)

/-- Apply one metrics operation. -/
def applyMetricsOp (m : SessionMetrics) : MetricsOp → SessionMetrics
  | .log_q ts q h rt qt oid => log_query m ts q h rt qt oid
  | .log_e ts et d => log_error m ts et d
  | .reset ts => reset_metrics m ts

/-- Run a sequence of metrics operations. -/
def runMetricsOps (m : SessionMetrics) (ops : List MetricsOp) : SessionMetrics :=
  ops.foldl applyMetricsOp m

/-! The retry skeleton of `generate_response` (source lines 1643-1735):
`max_retries = 3`, `retry_delay = 2`, doubling on each retried failure.
The HTTP collaborator is an oracle giving each attempt's outcome; the
timestamp oracle feeds `log_error`. -/

/-- Outcome of one generation attempt: success, a 429 rate limit
(retried with backoff), another `RequestException` (returns immediately),
or a generic exception (retried with backoff). -/
inductive GenOutcome where
  | success (resp : String)
  | rateLimit (emsg : String)
  | requestError (emsg : String)
  | otherError (emsg : String)

/-- A single apostrophe, used by the canned response texts. -/
def apostrophe : String := String.mk [Char.ofNat 39]

/-- The response returned when a non-429 `RequestException` occurs. -/
def request_error_response : String :=
  "I encountered an error while processing your request. Please try again."

/-- The response returned after all retry attempts fail. -/
def exhausted_response : String :=
  "I apologize, but I couldn" ++ apostrophe ++
    "t generate a response after multiple attempts. Please try again later."

/-- The rate-limit degraded response of `process_query`, only produced when
an exception whose text mentions a rate limit escapes to `process_query`. -/
def high_demand_response : String :=
  "I" ++ apostrophe ++
    "m currently experiencing high demand. Please try again in a moment."

/-- Result of the modelled `generate_response`: the returned response text,
the metrics state after the embedded `log_error` calls, and the trace of
`time.sleep` delays. -/
structure GenResult where
  response : String
  metrics : SessionMetrics
  sleeps : List Nat
deriving DecidableEq

/-- The `for attempt in range(max_retries)` loop of `generate_response`,
with remaining attempts as fuel. -/
def generate_response_loop (outcomes : Nat → GenOutcome) (tss : Nat → String) :
    Nat → Nat → Nat → SessionMetrics → List Nat → GenResult
  | 0, _attempt, _delay, m, sleeps => ⟨exhausted_response, m, sleeps⟩
  | r + 1, attempt, delay, m, sleeps =>
    match outcomes attempt with
    | .success resp => ⟨resp, m, sleeps⟩
    | .rateLimit emsg =>
      let m1 := log_error m (tss attempt) (some ("API Error"))
        (some ("Attempt " ++ toString (attempt + 1) ++ ": " ++ emsg))
      generate_response_loop outcomes tss r (attempt + 1) (delay * 2) m1
        (sleeps ++ [delay])
    | .requestError emsg =>
      let m1 := log_error m (tss attempt) (some ("API Error"))
        (some ("Attempt " ++ toString (attempt + 1) ++ ": " ++ emsg))
      ⟨request_error_response, m1, sleeps⟩
    | .otherError emsg =>
      let m1 := log_error m (tss attempt) (some ("General Error"))
        (some ("Attempt " ++ toString (attempt + 1) ++ ": " ++ emsg))
      generate_response_loop outcomes tss r (attempt + 1) (delay * 2) m1
        (sleeps ++ [delay])

/-- `generate_response` with `max_retries = 3` and `retry_delay = 2`. -/
def generate_response_model (outcomes : Nat → GenOutcome) (tss : Nat → String)
    (m : SessionMetrics) : GenResult :=
  generate_response_loop outcomes tss 3 0 2 m []

/-! The conversation-context construction of `_build_conversation_context`
and the byte-capped full query assembled in `process_query`
(source lines 1383-1394 and 1557-1584). -/

/-- Conversation roles; the source only ever appends `user` / `assistant`. -/
inductive ChatRole where
  | user
  | assistant
deriving DecidableEq

/-- Python `msg['role'].capitalize()` on the two roles used. -/
def roleLabel : ChatRole → String
  | .user => "User"
  | .assistant => "Assistant"

/-- One turn of the conversation history. -/
structure ChatMsg where
  role : ChatRole
  content : String
deriving DecidableEq

/-- The context used at the start of a new conversation. -/
def ctx_new_conversation : String :=
  "You are a knowledgeable sommelier AI assistant. This is the start of a new conversation."

/-- The context header for a continuing conversation. -/
def ctx_continue : String :=
  "You are a knowledgeable sommelier AI assistant. Continue the conversation naturally."

/-- The fallback context when the assembled context is too large. -/
def ctx_fallback : String :=
  "You are a knowledgeable sommelier AI assistant. Continue the conversation naturally based on previous messages about wine."

/-- Python `len(s.encode('utf-8'))`. -/
def pyByteLen (s : String) : Nat := (strBytes s).length

/-- `_build_conversation_context`: header plus the last exchange, each
message capped at 100 characters, with a 450-byte guard. -/
def build_conversation_context (history : List ChatMsg) : String :=
  if history.isEmpty then ctx_new_conversation
  else
    let recent := history.drop (history.length - 2)
    let context := recent.foldl (fun ctx msg =>
      let content :=
        if msg.content.length > 100 then pyTake msg.content 97 ++ "..." else msg.content
      ctx ++ "\n" ++ roleLabel msg.role ++ ": " ++ content) ctx_continue
    if pyByteLen context > 450 then ctx_fallback else context

/-- The full query string `process_query` sends to the generation service:
query truncated to 450 characters, context prepended, and a 512-byte
fallback that drops the context. -/
def build_full_query (history : List ChatMsg) (query0 : String) : String :=
  let context := build_conversation_context history
  let query := if query0.length > 450 then pyTake query0 450 ++ "..." else query0
  let full_query := context ++ "\n\nUser: " ++ query
  if pyByteLen full_query > 512 then "User: " ++ query else full_query

/-! General lemmas about the embedded operations. -/

attribute [local semireducible] Rat.mul Rat.inv Rat.add Rat.sub

/-- Left cancellation for string append. -/
theorem str_append_left_cancel {a b c : String} (h : a ++ b = a ++ c) : b = c := by
  apply String.ext
  have hd : a.data ++ b.data = a.data ++ c.data := by
    rw [← String.data_append, ← String.data_append, h]
  exact List.append_cancel_left hd

/-! Claim C1: Scenario A of the specification. -/

/-- C1 (counterexample): the two Scenario A queries do NOT get equal
essences — the essence embeds the stopword-stripped exact query text, which
differs — and consequently their cache keys under the same data source,
prompt and no conversation differ as well. -/
theorem c1_essences_differ_cex :
    get_query_essence ("What wine pairs with steak?")
      ≠ get_query_essence ("what pairs well with a good steak")
    ∧ generate_stable_id (get_query_essence ("What wine pairs with steak?"))
        ("ds1") ("p1") none
      ≠ generate_stable_id (get_query_essence ("what pairs well with a good steak"))
        ("ds1") ("p1") none := by
  decide

/-- C1 (amended): both Scenario A queries are classified as food-pairing and
both extract exactly the food entity `steak`, but the computed essences
differ (each embeds its own stopword-stripped exact query), so the stable
cache keys derived under identical data source, prompt and no conversation
also differ. -/
theorem c1_pairing_extraction_amended :
    is_food_pairing_query ("What wine pairs with steak?") = true
    ∧ is_food_pairing_query ("what pairs well with a good steak") = true
    ∧ extract_food_items ("What wine pairs with steak?") = ["steak"]
    ∧ extract_food_items ("what pairs well with a good steak") = ["steak"]
    ∧ get_query_essence ("What wine pairs with steak?")
        = "exact_what wine pairs steak?_pair_with_steak"
    ∧ get_query_essence ("what pairs well with a good steak")
        = "exact_what pairs well good steak_pair_with_steak"
    ∧ generate_stable_id (get_query_essence ("What wine pairs with steak?"))
        ("ds1") ("p1") none
      ≠ generate_stable_id (get_query_essence ("what pairs well with a good steak"))
        ("ds1") ("p1") none := by
  decide

/-! Claim C3: essence invariance under case changes and role markers. -/

/-- C3 (counterexample): inserting the role marker `user:` changes the
computed essence — the marker is stripped for classification and entity
extraction but not from the exact-match component. -/
theorem c3_role_marker_cex :
    get_query_essence ("user: what wine pairs with steak?")
      ≠ get_query_essence ("what wine pairs with steak?") := by
  decide

/-- C3 (amended): the essence is invariant under case changes (it only
depends on the lower-cased, trimmed text); embedded role markers are
stripped before classification and food-entity extraction, but they do leak
into the essence, so a query with an embedded `user:` label gets a
different essence. -/
theorem c3_case_invariance_amended :
    (∀ q1 q2 : String, pyLower q1 = pyLower q2 →
        get_query_essence q1 = get_query_essence q2)
    ∧ is_food_pairing_query ("user: what wine pairs with steak?") = true
    ∧ extract_food_items ("user: what wine pairs with steak?") = ["steak"]
    ∧ get_query_essence ("user: what wine pairs with steak?")
        ≠ get_query_essence ("what wine pairs with steak?") := by
  refine ⟨?_, by decide, by decide, by decide⟩
  intro q1 q2 h
  simp only [get_query_essence, pyLowerStrip, h]

/-- C3 witness: the case-invariance part applied to a concrete pair. -/
theorem c3_case_invariance_amended_witness :
    pyLower ("WHAT Wine Pairs With Steak?")
      = pyLower ("what wine pairs with steak?")
    ∧ get_query_essence ("WHAT Wine Pairs With Steak?")
      = get_query_essence ("what wine pairs with steak?") :=
  ⟨by decide, c3_case_invariance_amended.1 ("WHAT Wine Pairs With Steak?")
    ("what wine pairs with steak?") (by decide)⟩

/-! Claim C4: conversation ids separate cache keys. -/

/-- C4 (counterexample): the empty string is a conversation id distinct from
"no conversation", yet Python truthiness maps both to an empty conversation
segment, so the derived keys coincide. -/
theorem c4_empty_conv_cex :
    some ("") ≠ (none : Option String)
    ∧ generate_stable_id ("essence") ("ds1") ("p1") (some (""))
      = generate_stable_id ("essence") ("ds1") ("p1") none := by
  exact ⟨by decide, rfl⟩

/-- A conversation id that Python treats as present: absent, or non-empty. -/
def conv_ok : Option String → Bool
  | none => true
  | some c => !(pyEmpty c)

/-- C4 (amended): for a fixed (essence, data source, prompt) triple, any two
distinct conversation ids that are non-empty or absent produce distinct
pre-hash component strings; the keys themselves then differ whenever the
128-bit hash does not collide on those two component strings. -/
theorem c4_conv_distinct_components_amended :
    (∀ (e ds p : String) (c1 c2 : Option String),
        conv_ok c1 = true → conv_ok c2 = true → c1 ≠ c2 →
        stable_id_components e ds p c1 ≠ stable_id_components e ds p c2)
    ∧ (∀ (e ds p : String) (c1 c2 : Option String),
        md5Hexdigest (stable_id_components e ds p c1)
          ≠ md5Hexdigest (stable_id_components e ds p c2) →
        generate_stable_id e ds p c1 ≠ generate_stable_id e ds p c2) := by
  constructor
  · intro e ds p c1 c2 h1 h2 hne heq
    have hcc : conv_component c1 = conv_component c2 :=
      str_append_left_cancel heq
    apply hne
    have h0 : ("" : String).length = 0 := rfl
    have h6 : ("|conv_" : String).length = 6 := rfl
    cases c1 with
    | none =>
      cases c2 with
      | none => rfl
      | some s2 =>
        exfalso
        have h2' : pyEmpty s2 = false := by simpa [conv_ok] using h2
        simp [conv_component, h2'] at hcc
        have hlen := congrArg String.length hcc
        rw [String.length_append] at hlen
        omega
    | some s1 =>
      have h1' : pyEmpty s1 = false := by simpa [conv_ok] using h1
      cases c2 with
      | none =>
        exfalso
        simp [conv_component, h1'] at hcc
        have hlen := congrArg String.length hcc
        rw [String.length_append] at hlen
        omega
      | some s2 =>
        have h2' : pyEmpty s2 = false := by simpa [conv_ok] using h2
        simp [conv_component, h1', h2'] at hcc
        exact congrArg some (str_append_left_cancel hcc)
  · intro e ds p c1 c2 hne heq
    exact hne (str_append_left_cancel heq)

/-- C4 witness: the amended separation applied to two concrete non-empty
conversation ids, and to a present-versus-absent pair. -/
theorem c4_conv_distinct_components_amended_witness :
    (conv_ok (some ("alpha")) = true ∧ conv_ok (some ("beta")) = true
      ∧ some ("alpha") ≠ some ("beta")
      ∧ stable_id_components ("e") ("d") ("p") (some ("alpha"))
          ≠ stable_id_components ("e") ("d") ("p") (some ("beta")))
    ∧ (conv_ok (some ("alpha")) = true ∧ conv_ok (none : Option String) = true
      ∧ some ("alpha") ≠ (none : Option String)
      ∧ stable_id_components ("e") ("d") ("p") (some ("alpha"))
          ≠ stable_id_components ("e") ("d") ("p") none) :=
  ⟨⟨by decide, by decide, by decide,
    c4_conv_distinct_components_amended.1 ("e") ("d") ("p") (some ("alpha"))
      (some ("beta")) (by decide) (by decide) (by decide)⟩,
   ⟨by decide, by decide, by decide,
    c4_conv_distinct_components_amended.1 ("e") ("d") ("p") (some ("alpha"))
      none (by decide) (by decide) (by decide)⟩⟩

/-! Claim C6: Jaccard similarity, reflexivity and symmetry. -/

/-- C6 (counterexample): the similarity of the empty string with itself is
0.0, not 1.0 — the source returns 0.0 whenever either word set is empty. -/
theorem c6_self_similarity_cex :
    calculate_text_similarity ("") ("") ≠ 1 := by
  decide

/-- C6 (amended): similarity is symmetric for all inputs, self-similarity is
1.0 for every string with at least one word, and it is 0.0 for a wordless
string such as the empty string. -/
theorem c6_similarity_amended :
    (∀ a b : String, calculate_text_similarity a b = calculate_text_similarity b a)
    ∧ (∀ a : String, word_set a ≠ ∅ → calculate_text_similarity a a = 1)
    ∧ calculate_text_similarity ("") ("") = 0 := by
  refine ⟨?_, ?_, by decide⟩
  · intro a b
    unfold calculate_text_similarity
    by_cases ha : word_set a = ∅ <;> by_cases hb : word_set b = ∅ <;>
      simp [ha, hb, Finset.inter_comm, Finset.union_comm]
  · intro a ha
    unfold calculate_text_similarity
    rw [if_neg (by simp [ha])]
    rw [Finset.inter_self, Finset.union_self]
    have h0 : (word_set a).card ≠ 0 := by
      simpa [Finset.card_eq_zero] using ha
    exact div_self (by exact_mod_cast h0)

/-- C6 witness: self-similarity 1.0 at a concrete non-empty string. -/
theorem c6_similarity_amended_witness :
    word_set ("red wine") ≠ ∅
    ∧ calculate_text_similarity ("red wine") ("red wine") = 1 :=
  ⟨by decide, c6_similarity_amended.2.1 ("red wine") (by decide)⟩

/-! Claim C8: the 512-byte cap on the generation query. -/

/-- C8 (bug witness): for a 200-character query of four-byte characters and
an empty history, the string sent to the generation service is 806 UTF-8
bytes — the source checks the 512-byte limit before falling back to
`"User: " + query` but never re-checks the fallback, whose length is only
capped in characters, not bytes. -/
theorem c8_byte_cap_violation :
    512 < pyByteLen (build_full_query []
        (String.mk (List.replicate 200 (Char.ofNat 127863))))
    ∧ pyByteLen (build_full_query []
        (String.mk (List.replicate 200 (Char.ofNat 127863)))) = 806 := by
  decide

/-! Claim C2: the stable key is a pure deterministic function with a fixed
hex format. -/

/-- A lowercase hexadecimal character. -/
def is_hex_char (c : Char) : Bool :=
  c.isDigit || (decide (97 ≤ c.toNat) && decide (c.toNat ≤ 102))

/-- Each byte contributes exactly two characters to the hex rendering. -/
theorem flatMap_byteHexChars_length (l : List Nat) :
    (l.flatMap byteHexChars).length = 2 * l.length := by
  induction l with
  | nil => rfl
  | cons a t ih =>
    simp [byteHexChars, ih]
    ring

/-- The MD5 digest always has 16 bytes. -/
theorem md5DigestBytes_length (msg : List Nat) : (md5DigestBytes msg).length = 16 := by
  simp [md5DigestBytes, wordLEBytes]

/-- The MD5 hex digest always has 32 characters. -/
theorem md5Hexdigest_length (s : String) : (md5Hexdigest s).length = 32 := by
  show ((md5DigestBytes (strBytes s)).flatMap byteHexChars).length = 32
  rw [flatMap_byteHexChars_length, md5DigestBytes_length]

/-- Hex characters of values below 16 are lowercase hex digits. -/
theorem toHexChar_hex {n : Nat} (h : n < 16) : is_hex_char (toHexChar n) = true := by
  have hall : ∀ k < 16, is_hex_char (toHexChar k) = true := by decide
  exact hall n h

/-- Every character of a byte's hex rendering is a hex digit. -/
theorem mem_byteHexChars_hex {b : Nat} {c : Char} (h : c ∈ byteHexChars b) :
    is_hex_char c = true := by
  have h1 : b / 16 % 16 < 16 := Nat.mod_lt _ (by norm_num)
  have h2 : b % 16 < 16 := Nat.mod_lt _ (by norm_num)
  simp only [byteHexChars, List.mem_cons, List.mem_singleton] at h
  rcases h with h | h | h
  · subst h; exact toHexChar_hex h1
  · subst h; exact toHexChar_hex h2
  · cases h

/-- Every character of a hex rendering of bytes is a hex digit. -/
theorem mem_flatMap_hex {l : List Nat} {c : Char} (h : c ∈ l.flatMap byteHexChars) :
    is_hex_char c = true := by
  rw [List.mem_flatMap] at h
  obtain ⟨b, _, hc⟩ := h
  exact mem_byteHexChars_hex hc

/-- C2: key derivation is a pure function of the essence and the ids —
equal essences give equal keys under equal data source, prompt and
conversation id — and every derived key is the fixed namespace tag
`sommelier_` followed by exactly 32 lowercase hex characters (total length
42), with no dependence on anything but the four inputs. -/
theorem c2_stable_key_deterministic :
    (∀ (q1 q2 ds p : String) (c : Option String),
        get_query_essence q1 = get_query_essence q2 →
        generate_stable_id (get_query_essence q1) ds p c
          = generate_stable_id (get_query_essence q2) ds p c)
    ∧ (∀ (e ds p : String) (c : Option String),
        ∃ t : String, generate_stable_id e ds p c = "sommelier_" ++ t
          ∧ t.length = 32
          ∧ ∀ ch ∈ t.data, is_hex_char ch = true)
    ∧ (∀ (e ds p : String) (c : Option String),
        (generate_stable_id e ds p c).length = 42) := by
  refine ⟨?_, ?_, ?_⟩
  · intro q1 q2 ds p c h
    rw [h]
  · intro e ds p c
    refine ⟨md5Hexdigest (stable_id_components e ds p c), rfl,
      md5Hexdigest_length _, ?_⟩
    intro ch hch
    exact mem_flatMap_hex hch
  · intro e ds p c
    unfold generate_stable_id
    rw [String.length_append, md5Hexdigest_length]
    rfl

/-- C2 witness: two different texts with the same essence give the same
key; the key format holds on a concrete instance. -/
theorem c2_stable_key_deterministic_witness :
    get_query_essence ("Hello There") = get_query_essence ("hello  there")
    ∧ generate_stable_id (get_query_essence ("Hello There")) ("ds1") ("p1") none
      = generate_stable_id (get_query_essence ("hello  there")) ("ds1") ("p1") none
    ∧ (generate_stable_id (get_query_essence ("Hello There")) ("ds1") ("p1") none).length
      = 42 :=
  ⟨by decide,
   c2_stable_key_deterministic.1 ("Hello There") ("hello  there") ("ds1") ("p1") none
     (by decide),
   c2_stable_key_deterministic.2.2 (get_query_essence ("Hello There")) ("ds1") ("p1")
     none⟩

/-! Claim C5: the fuzzy-match search respects the 0.7 threshold. -/

/-- Invariant of the candidate loop: it either returns the seeded best with
every scanned candidate at or below the running score, or it returns a
scanned candidate that strictly beat the running score and weakly beats
every scanned candidate. -/
theorem find_best_match_loop_cases (uq : String) :
    ∀ (hits : List CacheHit) (best : Option CacheHit) (bs : ℚ),
      (find_best_match_loop uq hits best bs = best
        ∧ ∀ x ∈ hits, calculate_text_similarity uq (hit_user_query x) ≤ bs)
      ∨ (∃ h, find_best_match_loop uq hits best bs = some h ∧ h ∈ hits
          ∧ bs < calculate_text_similarity uq (hit_user_query h)
          ∧ ∀ x ∈ hits, calculate_text_similarity uq (hit_user_query x)
              ≤ calculate_text_similarity uq (hit_user_query h)) := by
  intro hits
  induction hits with
  | nil =>
    intro best bs
    left
    exact ⟨rfl, by simp⟩
  | cons h0 rest ih =>
    intro best bs
    by_cases hlt : bs < calculate_text_similarity uq (hit_user_query h0)
    · have heq : find_best_match_loop uq (h0 :: rest) best bs
          = find_best_match_loop uq rest (some h0)
              (calculate_text_similarity uq (hit_user_query h0)) := by
        simp [find_best_match_loop, hlt]
      rcases ih (some h0) (calculate_text_similarity uq (hit_user_query h0)) with
        ⟨hres, hall⟩ | ⟨h2, hres, hmem, hgt, hall⟩
      · right
        refine ⟨h0, by rw [heq, hres], List.mem_cons_self h0 rest, hlt, ?_⟩
        intro x hx
        rcases List.mem_cons.mp hx with rfl | hx
        · exact le_refl _
        · exact hall x hx
      · right
        refine ⟨h2, by rw [heq, hres], List.mem_cons_of_mem _ hmem,
          lt_trans hlt hgt, ?_⟩
        intro x hx
        rcases List.mem_cons.mp hx with rfl | hx
        · exact le_of_lt hgt
        · exact hall x hx
    · have heq : find_best_match_loop uq (h0 :: rest) best bs
          = find_best_match_loop uq rest best bs := by
        simp [find_best_match_loop, hlt]
      rcases ih best bs with ⟨hres, hall⟩ | ⟨h2, hres, hmem, hgt, hall⟩
      · left
        refine ⟨by rw [heq, hres], ?_⟩
        intro x hx
        rcases List.mem_cons.mp hx with rfl | hx
        · exact le_of_not_lt hlt
        · exact hall x hx
      · right
        refine ⟨h2, by rw [heq, hres], List.mem_cons_of_mem _ hmem, hgt, ?_⟩
        intro x hx
        rcases List.mem_cons.mp hx with rfl | hx
        · exact le_trans (le_of_not_lt hlt) (le_of_lt hgt)
        · exact hall x hx

/-- C5: the fuzzy search returns `none` on the empty pool; any returned
candidate comes from the pool, its similarity to the user query strictly
exceeds the 0.7 threshold, and it weakly dominates every candidate in the
pool; and when `none` is returned no candidate exceeds the threshold. -/
theorem c5_fuzzy_threshold :
    (∀ uq : String, find_previous_response_fuzzy uq [] = none)
    ∧ (∀ (uq : String) (hits : List CacheHit) (h : CacheHit),
        find_previous_response_fuzzy uq hits = some h →
          h ∈ hits
          ∧ 7 / 10 < calculate_text_similarity uq (hit_user_query h)
          ∧ ∀ x ∈ hits, calculate_text_similarity uq (hit_user_query x)
              ≤ calculate_text_similarity uq (hit_user_query h))
    ∧ (∀ (uq : String) (hits : List CacheHit),
        find_previous_response_fuzzy uq hits = none →
          ∀ x ∈ hits, calculate_text_similarity uq (hit_user_query x) ≤ 7 / 10) := by
  refine ⟨fun uq => rfl, ?_, ?_⟩
  · intro uq hits h hres
    unfold find_previous_response_fuzzy at hres
    rcases find_best_match_loop_cases uq hits none (7 / 10) with
      ⟨he, _⟩ | ⟨h2, he, hmem, hgt, hall⟩
    · rw [hres] at he
      cases he
    · rw [hres] at he
      obtain rfl : h = h2 := by injection he
      exact ⟨hmem, hgt, hall⟩
  · intro uq hits hres x hx
    unfold find_previous_response_fuzzy at hres
    rcases find_best_match_loop_cases uq hits none (7 / 10) with
      ⟨_, hall⟩ | ⟨h2, he, _, _, _⟩
    · exact hall x hx
    · rw [hres] at he
      cases he

/-- C5 witness: a concrete pool where a candidate above the threshold is
found and returned. -/
theorem c5_fuzzy_threshold_witness :
    find_previous_response_fuzzy ("red wine")
      [⟨"red wine", "r1", "t1"⟩, ⟨"white wine", "r2", "t2"⟩]
      = some ⟨"red wine", "r1", "t1"⟩
    ∧ ((⟨"red wine", "r1", "t1"⟩ : CacheHit)
        ∈ [(⟨"red wine", "r1", "t1"⟩ : CacheHit), ⟨"white wine", "r2", "t2"⟩]
      ∧ 7 / 10 < calculate_text_similarity ("red wine")
          (hit_user_query ⟨"red wine", "r1", "t1"⟩)
      ∧ ∀ x ∈ [(⟨"red wine", "r1", "t1"⟩ : CacheHit), ⟨"white wine", "r2", "t2"⟩],
          calculate_text_similarity ("red wine") (hit_user_query x)
            ≤ calculate_text_similarity ("red wine")
                (hit_user_query ⟨"red wine", "r1", "t1"⟩)) :=
  ⟨by decide,
   c5_fuzzy_threshold.2.1 ("red wine")
     [⟨"red wine", "r1", "t1"⟩, ⟨"white wine", "r2", "t2"⟩]
     ⟨"red wine", "r1", "t1"⟩ (by decide)⟩

/-! Claim C7: retry behaviour of `generate_response`. -/

/-- Projections of `log_query`: exactly one query and one hit or miss is
recorded, the latency lands in the matching buckets, and the error state is
untouched. -/
theorem log_query_proj (m : SessionMetrics) (ts q : String) (f : Bool) (rt : ℚ)
    (qt oid : Option String) :
    (log_query m ts q f rt qt oid).total_queries = m.total_queries + 1
    ∧ (log_query m ts q f rt qt oid).cache_hits
        = m.cache_hits + (if f then 1 else 0)
    ∧ (log_query m ts q f rt qt oid).cache_misses
        = m.cache_misses + (if f then 0 else 1)
    ∧ (log_query m ts q f rt qt oid).response_times.length
        = m.response_times.length + 1
    ∧ (log_query m ts q f rt qt oid).cache_hit_times.length
        = m.cache_hit_times.length + (if f then 1 else 0)
    ∧ (log_query m ts q f rt qt oid).generation_times.length
        = m.generation_times.length + (if f then 0 else 1)
    ∧ (log_query m ts q f rt qt oid).api_errors = m.api_errors
    ∧ (log_query m ts q f rt qt oid).errors = m.errors := by
  unfold log_query
  rcases qt with _ | q0
  · cases f <;> simp
  · by_cases hq : pyEmpty q0 <;> cases f <;> simp [hq]

/-- Projections of `log_error`: only the error counter and the error log
change. -/
theorem log_error_proj (m : SessionMetrics) (ts : String) (et d : Option String) :
    (log_error m ts et d).total_queries = m.total_queries
    ∧ (log_error m ts et d).cache_hits = m.cache_hits
    ∧ (log_error m ts et d).cache_misses = m.cache_misses
    ∧ (log_error m ts et d).response_times = m.response_times
    ∧ (log_error m ts et d).cache_hit_times = m.cache_hit_times
    ∧ (log_error m ts et d).generation_times = m.generation_times
    ∧ (log_error m ts et d).api_errors = m.api_errors + 1
    ∧ (log_error m ts et d).errors.length = m.errors.length + 1 := by
  unfold log_error
  refine ⟨rfl, rfl, rfl, rfl, rfl, rfl, rfl, ?_⟩
  simp

/-- C7 (counterexample): on three straight rate-limit failures the code
returns the generic multiple-attempts apology, not the "high demand"
message, and it records three error entries, not one. -/
theorem c7_rate_limit_cex :
    (generate_response_model (fun _ => GenOutcome.rateLimit ("429 Client Error"))
        (fun _ => "ts") (fresh_session ("t0"))).response ≠ high_demand_response
    ∧ (generate_response_model (fun _ => GenOutcome.rateLimit ("429 Client Error"))
        (fun _ => "ts") (fresh_session ("t0"))).metrics.api_errors = 3 := by
  decide

/-- C7 (amended): three consecutive rate-limit failures produce exactly one
final degraded response — the generic multiple-attempts apology — after
sleeping 2, 4 and 8 seconds (exponential backoff from base delay 2); they
add exactly three error entries and no query record inside
`generate_response`, and the subsequent single `log_query` of
`process_query` records exactly one miss.  A non-429 request error returns
its degraded response immediately, with no backoff sleep and one error
entry. -/
theorem c7_retry_amended :
    ∀ (m : SessionMetrics) (tss : Nat → String) (ts q emsg : String) (rt : ℚ)
      (qt oid : Option String),
      (generate_response_model (fun _ => GenOutcome.rateLimit emsg) tss m).response
          = exhausted_response
      ∧ (generate_response_model (fun _ => GenOutcome.rateLimit emsg) tss m).sleeps
          = [2, 4, 8]
      ∧ (generate_response_model (fun _ => GenOutcome.rateLimit emsg) tss m).metrics.api_errors
          = m.api_errors + 3
      ∧ (generate_response_model (fun _ => GenOutcome.rateLimit emsg) tss m).metrics.errors.length
          = m.errors.length + 3
      ∧ (generate_response_model (fun _ => GenOutcome.rateLimit emsg) tss m).metrics.total_queries
          = m.total_queries
      ∧ (generate_response_model (fun _ => GenOutcome.rateLimit emsg) tss m).metrics.cache_misses
          = m.cache_misses
      ∧ (log_query (generate_response_model (fun _ => GenOutcome.rateLimit emsg) tss m).metrics
            ts q false rt qt oid).total_queries = m.total_queries + 1
      ∧ (log_query (generate_response_model (fun _ => GenOutcome.rateLimit emsg) tss m).metrics
            ts q false rt qt oid).cache_misses = m.cache_misses + 1
      ∧ (generate_response_model (fun _ => GenOutcome.requestError emsg) tss m).response
          = request_error_response
      ∧ (generate_response_model (fun _ => GenOutcome.requestError emsg) tss m).sleeps = []
      ∧ (generate_response_model (fun _ => GenOutcome.requestError emsg) tss m).metrics.api_errors
          = m.api_errors + 1 := by
  intro m tss ts q emsg rt qt oid
  have hrl : generate_response_model (fun _ => GenOutcome.rateLimit emsg) tss m
      = ⟨exhausted_response,
          log_error (log_error (log_error m (tss 0) (some ("API Error"))
              (some ("Attempt " ++ toString 1 ++ ": " ++ emsg)))
            (tss 1) (some ("API Error"))
              (some ("Attempt " ++ toString 2 ++ ": " ++ emsg)))
            (tss 2) (some ("API Error"))
              (some ("Attempt " ++ toString 3 ++ ": " ++ emsg)),
          [2, 4, 8]⟩ := by
    simp [generate_response_model, generate_response_loop]
  have hre : generate_response_model (fun _ => GenOutcome.requestError emsg) tss m
      = ⟨request_error_response,
          log_error m (tss 0) (some ("API Error"))
            (some ("Attempt " ++ toString 1 ++ ": " ++ emsg)), []⟩ := by
    simp [generate_response_model, generate_response_loop]
  rw [hrl, hre]
  refine ⟨rfl, rfl, ?_, ?_, ?_, ?_, ?_, ?_, rfl, rfl, ?_⟩
  · simp [log_error]
  · simp [log_error]
  · simp [log_error]
  · simp [log_error]
  · rw [(log_query_proj _ ts q false rt qt oid).1]
    simp [log_error]
  · rw [(log_query_proj _ ts q false rt qt oid).2.2.1]
    simp [log_error]
  · simp [log_error]

/-! Claim C9: the derived rate and cost aggregates. -/

/-- Banker's rounding of two rationals with an even integer sum is exact:
the two roundings always compensate. -/
theorem roundHalfEven_add (a b : ℚ) (n : ℤ) (hn : n % 2 = 0)
    (hab : a + b = (n : ℚ)) : roundHalfEven a + roundHalfEven b = n := by
  have hre : ∀ q : ℚ, roundHalfEven q =
      if Int.fract q < 1/2 then ⌊q⌋
      else if 1/2 < Int.fract q then ⌊q⌋ + 1
      else if ⌊q⌋ % 2 = 0 then ⌊q⌋ else ⌊q⌋ + 1 := fun q => rfl
  by_cases ha0 : Int.fract a = 0
  · -- `a` is an integer, so is `b`, and no rounding happens.
    have haf : a = (⌊a⌋ : ℚ) := by
      have := Int.floor_add_fract a
      rw [ha0] at this
      linarith
    have hb : b = ((n - ⌊a⌋ : ℤ) : ℚ) := by
      push_cast
      linarith
    have hfb : Int.fract b = 0 := by
      rw [hb, Int.fract_intCast]
    have hfloorb : ⌊b⌋ = n - ⌊a⌋ := by
      rw [hb, Int.floor_intCast]
    rw [hre a, hre b, ha0, hfb, hfloorb]
    norm_num
  · -- `a` has fractional part `r ∈ (0,1)`; `b` has fractional part `1 - r`.
    have hfa01 : 0 < Int.fract a ∧ Int.fract a < 1 :=
      ⟨lt_of_le_of_ne (Int.fract_nonneg a) (Ne.symm ha0), Int.fract_lt_one a⟩
    have hfb : Int.fract b = 1 - Int.fract a := by
      have hb : b = ((n : ℤ) : ℚ) + (-a) := by linarith
      rw [hb, Int.fract_int_add, Int.fract_neg ha0]
    have haf : (⌊a⌋ : ℚ) + Int.fract a = a := Int.floor_add_fract a
    have hbf : (⌊b⌋ : ℚ) + Int.fract b = b := Int.floor_add_fract b
    have hfloorb : ⌊b⌋ = n - ⌊a⌋ - 1 := by
      have hq : (⌊b⌋ : ℚ) = ((n - ⌊a⌋ - 1 : ℤ) : ℚ) := by
        push_cast
        rw [hfb] at hbf
        linarith
      exact_mod_cast hq
    rcases lt_trichotomy (Int.fract a) (1/2) with hlt | heq | hgt
    · -- round a down, round b up
      have hbgt : 1/2 < Int.fract b := by rw [hfb]; linarith
      rw [hre a, hre b, if_pos hlt, if_neg (by rw [hfb]; intro hc; linarith),
        if_pos hbgt, hfloorb]
      omega
    · -- the half-half case: parities of the two floors differ
      have hbeq : Int.fract b = 1/2 := by rw [hfb, heq]; norm_num
      rw [hre a, hre b, heq, hbeq, hfloorb]
      norm_num
      split_ifs <;> omega
    · -- round a up, round b down
      have hblt : Int.fract b < 1/2 := by rw [hfb]; linarith
      rw [hre a, hre b, if_neg (by intro hc; linarith), if_pos hgt,
        if_pos hblt, hfloorb]
      omega

/-- Two 2-digit roundings of rates summing to 100 sum to exactly 100. -/
theorem pyRound_sum_100 {a b : ℚ} (hab : a + b = 100) :
    pyRound a 2 + pyRound b 2 = 100 := by
  have h1 : a * 100 + b * 100 = ((10000 : ℤ) : ℚ) := by push_cast; linarith
  have h2 := roundHalfEven_add (a * 100) (b * 100) 10000 (by norm_num) h1
  unfold pyRound
  have hp : ((10 : ℚ) ^ 2) = 100 := by norm_num
  rw [hp, div_add_div_same, ← Int.cast_add, h2]
  norm_num

/-- C9: in any metrics state satisfying the counter invariant, hit and miss
rates sum to exactly 100 when there are queries, are both 0 when there are
none, and the cost-reduction percentage is 0 when the potential cost
without caching is 0. -/
theorem c9_derived_rates :
    ∀ (m : SessionMetrics) (tok cost : ℚ),
      m.total_queries = m.cache_hits + m.cache_misses →
      ((0 < m.total_queries →
          (calculate_derived_metrics m tok cost).cache_hit_rate
            + (calculate_derived_metrics m tok cost).cache_miss_rate = 100)
       ∧ (m.total_queries = 0 →
          (calculate_derived_metrics m tok cost).cache_hit_rate = 0
          ∧ (calculate_derived_metrics m tok cost).cache_miss_rate = 0)
       ∧ (((m.total_queries : ℚ) * tok / 1000) * cost = 0 →
          (calculate_derived_metrics m tok cost).cost_reduction_percentage = 0)) := by
  intro m tok cost hinv
  refine ⟨?_, ?_, ?_⟩
  · intro hpos
    have ht : ((m.total_queries : ℚ)) ≠ 0 := by
      exact_mod_cast Nat.pos_iff_ne_zero.mp hpos
    have hsum : (m.cache_hits : ℚ) / (m.total_queries : ℚ) * 100
        + (m.cache_misses : ℚ) / (m.total_queries : ℚ) * 100 = 100 := by
      field_simp
      push_cast [hinv]
      ring
    simp only [calculate_derived_metrics, if_pos hpos]
    exact pyRound_sum_100 hsum
  · intro hz
    simp [calculate_derived_metrics, hz]
  · intro hp
    simp only [calculate_derived_metrics, hp]
    norm_num [pyRound, roundHalfEven]

/-- C9 witness: a concrete state with 3 queries, 1 hit, 2 misses. -/
theorem c9_derived_rates_witness :
    (⟨"s", 3, 1, 2, 0, [], [], [], [], [], freshAlgoliaOps, []⟩ :
        SessionMetrics).total_queries
      = (⟨"s", 3, 1, 2, 0, [], [], [], [], [], freshAlgoliaOps, []⟩ :
        SessionMetrics).cache_hits
        + (⟨"s", 3, 1, 2, 0, [], [], [], [], [], freshAlgoliaOps, []⟩ :
        SessionMetrics).cache_misses
    ∧ (calculate_derived_metrics
        ⟨"s", 3, 1, 2, 0, [], [], [], [], [], freshAlgoliaOps, []⟩ 1000
        (1/500)).cache_hit_rate
      + (calculate_derived_metrics
        ⟨"s", 3, 1, 2, 0, [], [], [], [], [], freshAlgoliaOps, []⟩ 1000
        (1/500)).cache_miss_rate = 100 :=
  ⟨rfl,
   (c9_derived_rates ⟨"s", 3, 1, 2, 0, [], [], [], [], [], freshAlgoliaOps, []⟩
     1000 (1/500) rfl).1 (by norm_num)⟩

/-! Claim C10: the counter invariant of the session metrics. -/

/-- The five linked quantities of a metrics state. -/
def metrics_invariant (m : SessionMetrics) : Prop :=
  m.total_queries = m.cache_hits + m.cache_misses
  ∧ m.response_times.length = m.total_queries
  ∧ m.cache_hit_times.length = m.cache_hits
  ∧ m.generation_times.length = m.cache_misses

/-- Every metrics operation preserves the invariant. -/
theorem metrics_invariant_step (m : SessionMetrics) (op : MetricsOp)
    (h : metrics_invariant m) : metrics_invariant (applyMetricsOp m op) := by
  obtain ⟨h1, h2, h3, h4⟩ := h
  cases op with
  | log_q ts q f rt qt oid =>
    obtain ⟨p1, p2, p3, p4, p5, p6, _, _⟩ := log_query_proj m ts q f rt qt oid
    simp only [applyMetricsOp]
    refine ⟨?_, ?_, ?_, ?_⟩
    · rw [p1, p2, p3]
      cases f <;> simp <;> omega
    · rw [p4, p1, h2]
    · rw [p5, p2, h3]
    · rw [p6, p3, h4]
  | log_e ts et d =>
    obtain ⟨p1, p2, p3, p4, p5, p6, _, _⟩ := log_error_proj m ts et d
    simp only [applyMetricsOp]
    exact ⟨by rw [p1, p2, p3]; exact h1, by rw [p4, p1]; exact h2,
      by rw [p5, p2]; exact h3, by rw [p6, p3]; exact h4⟩
  | reset ts =>
    exact ⟨rfl, rfl, rfl, rfl⟩

/-- The invariant is preserved by any run of operations. -/
theorem metrics_invariant_run (ops : List MetricsOp) :
    ∀ m, metrics_invariant m → metrics_invariant (runMetricsOps m ops) := by
  induction ops with
  | nil => intro m h; exact h
  | cons op rest ih =>
    intro m h
    exact ih _ (metrics_invariant_step m op h)

/-- C10: in every state reachable from a fresh session by `log_query`,
`log_error` and `reset_metrics`, the totals and the three latency-list
lengths are linked as stated, and `log_error` changes none of those five
quantities — it only increments the error counter and appends a truncated
entry. -/
theorem c10_metrics_invariant :
    (∀ (ts : String) (ops : List MetricsOp),
        metrics_invariant (runMetricsOps (fresh_session ts) ops))
    ∧ (∀ (m : SessionMetrics) (ts : String) (et d : Option String),
        (log_error m ts et d).total_queries = m.total_queries
        ∧ (log_error m ts et d).cache_hits = m.cache_hits
        ∧ (log_error m ts et d).cache_misses = m.cache_misses
        ∧ (log_error m ts et d).response_times = m.response_times
        ∧ (log_error m ts et d).cache_hit_times = m.cache_hit_times
        ∧ (log_error m ts et d).generation_times = m.generation_times
        ∧ (log_error m ts et d).api_errors = m.api_errors + 1
        ∧ (log_error m ts et d).errors = m.errors ++
            [⟨ts, et,
              match d with
              | some s => if pyEmpty s then none else some (pyTake s 200)
              | none => none⟩]) := by
  constructor
  · intro ts ops
    exact metrics_invariant_run ops _ ⟨rfl, rfl, rfl, rfl⟩
  · intro m ts et d
    exact ⟨rfl, rfl, rfl, rfl, rfl, rfl, rfl, rfl⟩
